import Mathlib

/-!
Verification development for the hydraulic press simulator and its
regression-based performance advisor
(src/types/simulator.ts, src/utils/energyAnalysis.ts, src/utils/mlModel.ts,
src/utils/sensorGenerator.ts).

JavaScript numbers are modelled as exact rationals.  `Math.PI` is modelled
as an explicit parameter `piVal` (no verified property depends on its value
beyond positivity).  `Number(x.toFixed(2))` is modelled by `round2`.  The
asynchronous coefficient cache of `MLModel` is modelled by passing the
resolved coefficient set explicitly to `predict`/`suggestImprovements`.
-/

/-- Duty-cycle phases (src/types/simulator.ts). -/
inductive Phase
  | FastDown
  | Working
  | Holding
  | FastUp
  deriving DecidableEq, Repr

/-- Input parameters for the hydraulic system model (src/types/simulator.ts). -/
structure InputModel where
  boreCm : ℚ
  rodCm : ℚ
  deadLoadTon : ℚ
  holdingLoadTon : ℚ
  motorRpm : ℚ
  pumpEfficiency : ℚ
  systemLossBar : ℚ
  deriving DecidableEq, Repr

/-- A single datapoint in the simulation timeline (src/types/simulator.ts).
The `phase` field is optional in the source (`phase?: Phase`). -/
structure DataPoint where
  timeSec : ℚ
  strokeMm : ℚ
  flowLpm : ℚ
  pressureBar : ℚ
  hydPowerKW : ℚ
  pumpPowerKW : ℚ
  actuatorPowerKW : ℚ
  phase : Option Phase
  deriving DecidableEq, Repr

/-- Validation results for user input (src/types/simulator.ts). -/
structure ValidationResult where
  isValid : Bool
  warnings : List String
  tips : List String
  deriving DecidableEq, Repr

/-- `Partial<InputModel>`: every field may be absent (src/utils/validation
callers pass partially filled forms). -/
structure RawInput where
  boreCm : Option ℚ
  rodCm : Option ℚ
  deadLoadTon : Option ℚ
  holdingLoadTon : Option ℚ
  motorRpm : Option ℚ
  pumpEfficiency : Option ℚ
  systemLossBar : Option ℚ
  deriving DecidableEq, Repr

/-- `Number(x.toFixed(2))`: round to two decimal places. -/
def round2 (x : ℚ) : ℚ := ((round (100 * x) : ℤ) : ℚ) / 100

namespace HydroCalculator

/-- `HydroCalculator.pistonArea` (src/utils/sensorGenerator.ts i.e.
hydraulicCalculator): `Math.PI * Math.pow(boreCm/100, 2) / 4`. -/
def pistonArea (piVal boreCm : ℚ) : ℚ := piVal * (boreCm / 100) ^ 2 / 4

/-- `HydroCalculator.rodArea`: `Math.PI * ((boreM)^2 - (rodM)^2) / 4`. -/
def rodArea (piVal boreCm rodCm : ℚ) : ℚ :=
  piVal * ((boreCm / 100) ^ 2 - (rodCm / 100) ^ 2) / 4

/-- `HydroCalculator.forceFromTon`: `ton * 1000 * 9.81`. -/
def forceFromTon (ton : ℚ) : ℚ := ton * 1000 * 9.81

/-- `HydroCalculator.pressureBar`: `(forceN / areaM2) / 1e5`. -/
def pressureBar (forceN areaM2 : ℚ) : ℚ := forceN / areaM2 / 100000

/-- `HydroCalculator.flowLpm`: `areaM2 * (speedMmSec/1000) * 60 * 1000`. -/
def flowLpm (areaM2 speedMmSec : ℚ) : ℚ := areaM2 * (speedMmSec / 1000) * 60 * 1000

/-- `HydroCalculator.hydraulicPowerKW`: `pBar * qLpm / 600`. -/
def hydraulicPowerKW (pBar qLpm : ℚ) : ℚ := pBar * qLpm / 600

/-- `HydroCalculator.pumpInputKW`: `hydraulicKW / pumpEff`. -/
def pumpInputKW (hydraulicKW pumpEff : ℚ) : ℚ := hydraulicKW / pumpEff

end HydroCalculator

namespace ValidationUtils

/-- JavaScript falsiness test performed by `validateInputs` on each required
field: `!input[field] || input[field] === 0` — true when the field is absent
or equal to `0`. -/
def fieldFalsy (o : Option ℚ) : Bool :=
  match o with
  | none => true
  | some x => decide (x = 0)

/-- `ValidationUtils.validateInputs` (src/utils/energyAnalysis.ts lines
53-98).  If any required field is absent or zero the single warning
"Please fill in all required fields" is returned with `isValid = false`;
otherwise range warnings/tips are collected and `isValid` is cleared only
by the `rodCm >= boreCm` geometry check. -/
def validateInputs (input : RawInput) : ValidationResult :=
  if fieldFalsy input.boreCm || fieldFalsy input.rodCm || fieldFalsy input.deadLoadTon ||
      fieldFalsy input.holdingLoadTon || fieldFalsy input.motorRpm ||
      fieldFalsy input.pumpEfficiency || fieldFalsy input.systemLossBar then
    { isValid := false, warnings := ["Please fill in all required fields"], tips := [] }
  else
    let bore := input.boreCm.getD 0
    let rod := input.rodCm.getD 0
    let dead := input.deadLoadTon.getD 0
    let holding := input.holdingLoadTon.getD 0
    let rpm := input.motorRpm.getD 0
    let pumpEff := input.pumpEfficiency.getD 0
    let sysLoss := input.systemLossBar.getD 0
    { isValid := if rod ≥ bore then false else true
      warnings :=
        (if bore > 8.5 then ["Bore exceeds recommended 8.5 cm"] else []) ++
        (if dead > 3.0 then ["Dead load exceeds recommended 3.0 ton"] else []) ++
        (if holding > 12.0 then ["Holding load exceeds recommended 12.0 ton"] else []) ++
        (if rod ≥ bore then ["Rod diameter must be smaller than bore diameter"] else [])
      tips :=
        (if pumpEff < 0.85 then ["Consider upgrading pump for higher efficiency (>85%)"] else []) ++
        (if sysLoss > 12 then ["High system losses detected. Check for leaks or restrictions"] else []) ++
        (if rpm < 1000 then ["Low RPM may result in slow cycle times"] else []) ++
        (if rpm > 3000 then ["High RPM may increase wear and noise"] else []) }

end ValidationUtils

namespace Simulator

/-- Number of iterations of the loop
`for (elapsed = 0; elapsed < durationSec; elapsed += 0.01)`:
the `k`-th iteration runs while `k * 0.01 < durationSec`. -/
def phaseStepCount (durationSec : ℚ) : ℕ := (Int.ceil (durationSec / 0.01)).toNat

/-- `Simulator.simulatePhase` (src/utils/energyAnalysis.ts lines 170-207).
Returns the appended data points and the advanced time.  Force and pressure
are fixed per phase; each step records a rounded `DataPoint` (with no
`phase` tag, exactly as in the source) and advances stroke and time. -/
def simulatePhase (inp : InputModel) (startTime startStroke speedMmSec strokeMm durationSec loadTon area : ℚ) :
    List DataPoint × ℚ :=
  let n := phaseStepCount durationSec
  let forceN := HydroCalculator.forceFromTon loadTon
  let pBar := HydroCalculator.pressureBar forceN area
  let pts := (List.range n).map fun j =>
    let flow := HydroCalculator.flowLpm area speedMmSec
    let hydKW := HydroCalculator.hydraulicPowerKW pBar flow
    let pumpKW := HydroCalculator.pumpInputKW hydKW inp.pumpEfficiency
    let actKW := if 0 < speedMmSec then forceN * (speedMmSec / 1000) / 1000 else 0
    { timeSec := round2 (startTime + j * 0.01)
      strokeMm := round2 (startStroke + j * (speedMmSec * 0.01))
      flowLpm := round2 flow
      pressureBar := round2 pBar
      hydPowerKW := round2 hydKW
      pumpPowerKW := round2 pumpKW
      actuatorPowerKW := round2 actKW
      phase := none }
  (pts, startTime + n * 0.01)

/-- `Simulator.runSimulation` (src/utils/energyAnalysis.ts lines 128-168):
the four fixed phases, returning the data series together with the final
value of the `time` accumulator.  (`strokeMm` argument of each phase is the
nominal stroke, unused by the loop, kept for faithfulness.) -/
def runSimulationData (piVal : ℚ) (inp : InputModel) : List DataPoint × ℚ :=
  let pistonArea := HydroCalculator.pistonArea piVal inp.boreCm
  let rodArea := HydroCalculator.rodArea piVal inp.boreCm inp.rodCm
  let p1 := simulatePhase inp 0 0 200 200 1 inp.deadLoadTon pistonArea
  let p2 := simulatePhase inp p1.2 200 10 50 5 inp.holdingLoadTon pistonArea
  let p3 := simulatePhase inp p2.2 250 0 0 2 inp.holdingLoadTon pistonArea
  let p4 := simulatePhase inp p3.2 250 200 250 1.25 inp.deadLoadTon rodArea
  (p1.1 ++ p2.1 ++ p3.1 ++ p4.1, p4.2)

/-- The `DataPoint` series produced by `Simulator.runSimulation`. -/
def runSimulation (piVal : ℚ) (inp : InputModel) : List DataPoint :=
  (runSimulationData piVal inp).1

end Simulator

/-- Per-phase accumulator used inside `aggregateEnergyByPhase`. -/
structure PhaseAcc where
  energyKJ : ℚ
  duration : ℚ
  totalPower : ℚ
  count : ℕ
  deriving DecidableEq, Repr

/-- Per-phase aggregate produced by `aggregateEnergyByPhase`. -/
structure PhaseEnergy where
  phase : Phase
  energyKJ : ℚ
  durationSec : ℚ
  avgPowerKW : ℚ
  deriving DecidableEq, Repr

/-- Pair every data point with the time of its successor (the last point is
paired with its own time), mirroring
`nextTime = i < data.length - 1 ? data[i+1].timeSec : dp.timeSec`. -/
def withNext : List DataPoint → List (DataPoint × ℚ)
  | [] => []
  | [dp] => [(dp, dp.timeSec)]
  | dp :: dp2 :: rest => (dp, dp2.timeSec) :: withNext (dp2 :: rest)

/-- Insertion-ordered upsert into the `byPhase` record: a missing key is
created from the zero accumulator, an existing key is updated in place. -/
def upsert : List (Phase × PhaseAcc) → Phase → (PhaseAcc → PhaseAcc) → List (Phase × PhaseAcc)
  | [], ph, f => [(ph, f ⟨0, 0, 0, 0⟩)]
  | (p, a) :: rest, ph, f =>
    if p = ph then (p, f a) :: rest else (p, a) :: upsert rest ph f

/-- One loop iteration of `aggregateEnergyByPhase`: bucket the sample into
`dp.phase || 'Working'` with `dt = max(0.001, nextTime - dp.timeSec)`. -/
def addSample (acc : List (Phase × PhaseAcc)) (x : DataPoint × ℚ) : List (Phase × PhaseAcc) :=
  let ph := x.1.phase.getD Phase.Working
  let dt := max 0.001 (x.2 - x.1.timeSec)
  let powerKW := x.1.hydPowerKW
  upsert acc ph fun a =>
    { energyKJ := a.energyKJ + powerKW * dt
      duration := a.duration + dt
      totalPower := a.totalPower + powerKW
      count := a.count + 1 }

/-- `aggregateEnergyByPhase` (src/utils/energyAnalysis.ts lines 18-48). -/
def aggregateEnergyByPhase (data : List DataPoint) : List PhaseEnergy :=
  if data.isEmpty then []
  else
    ((withNext data).foldl addSample []).map fun e =>
      { phase := e.1
        energyKJ := round2 e.2.energyKJ
        durationSec := round2 e.2.duration
        avgPowerKW := round2 (e.2.totalPower / (max 1 (e.2.count : ℚ))) }

/-- Prediction confidence labels. -/
inductive Confidence
  | low
  | medium
  | high
  deriving DecidableEq, Repr

/-- `PredictionResult` (src/utils/mlModel.ts). -/
structure PredictionResult where
  maxPressure : ℚ
  efficiency : ℚ
  cycleTime : ℚ
  confidence : Confidence
  deriving DecidableEq, Repr

/-- `Goal` (src/utils/mlModel.ts): optional percentage targets. -/
structure Goal where
  targetCycleTimePct : Option ℚ
  targetMaxPressurePct : Option ℚ
  targetEfficiencyPct : Option ℚ
  deriving DecidableEq, Repr

/-- The tunable parameters a `Suggestion` may address. -/
inductive TunableParam
  | boreCm
  | motorRpm
  | rodCm
  | pumpEfficiency
  deriving DecidableEq, Repr

/-- The three target metrics of the regression model. -/
inductive TargetMetric
  | maxPressure
  | efficiency
  | cycleTime
  deriving DecidableEq, Repr

/-- `Suggestion` (src/utils/mlModel.ts); the presentation-only string
fields (`impact`) are omitted from the model. -/
structure Suggestion where
  parameter : TunableParam
  currentValue : ℚ
  suggestedValue : ℚ
  change : ℚ
  outOfRange : Bool
  confidence : Confidence
  deriving DecidableEq, Repr

/-- One metric block of `RegressionCoefficients` (src/utils/mlModel.ts):
intercept plus one linear coefficient per `InputModel` field.  All three
metric blocks share this shape. -/
structure MetricCoeffs where
  intercept : ℚ
  boreCm : ℚ
  rodCm : ℚ
  deadLoadTon : ℚ
  holdingLoadTon : ℚ
  motorRpm : ℚ
  pumpEfficiency : ℚ
  systemLossBar : ℚ
  deriving DecidableEq, Repr

/-- The `rSquared` block of `RegressionCoefficients`. -/
structure RSquaredBlock where
  pressure : ℚ
  efficiency : ℚ
  cycleTime : ℚ
  deriving DecidableEq, Repr

/-- `RegressionCoefficients` (src/utils/mlModel.ts). -/
structure RegressionCoefficients where
  pressure : MetricCoeffs
  efficiency : MetricCoeffs
  cycleTime : MetricCoeffs
  rSquared : RSquaredBlock
  deriving DecidableEq, Repr

namespace MLModel

/-- `MLModel.FALLBACK_COEFFS` (src/utils/mlModel.ts lines 68-104). -/
def FALLBACK_COEFFS : RegressionCoefficients :=
  { pressure :=
      { intercept := 45.2, boreCm := -8.5, rodCm := 2.1, deadLoadTon := 12.3
        holdingLoadTon := 8.7, motorRpm := 0.002, pumpEfficiency := -15.4
        systemLossBar := 1.8 }
    efficiency :=
      { intercept := 0.65, boreCm := 0.08, rodCm := -0.02, deadLoadTon := -0.01
        holdingLoadTon := -0.005, motorRpm := 0.00008, pumpEfficiency := 0.35
        systemLossBar := -0.008 }
    cycleTime :=
      { intercept := 12.5, boreCm := -1.2, rodCm := 0.3, deadLoadTon := 0.8
        holdingLoadTon := 0.4, motorRpm := -0.003, pumpEfficiency := -2.1
        systemLossBar := 0.15 }
    rSquared := { pressure := 0.87, efficiency := 0.92, cycleTime := 0.85 } }

/-- `MLModel.calculatePressure` (src/utils/mlModel.ts lines 299-308). -/
def calculatePressure (inputs : InputModel) (coeffs : MetricCoeffs) : ℚ :=
  coeffs.intercept +
    coeffs.boreCm * inputs.boreCm +
    coeffs.rodCm * inputs.rodCm +
    coeffs.deadLoadTon * inputs.deadLoadTon +
    coeffs.holdingLoadTon * inputs.holdingLoadTon +
    coeffs.motorRpm * inputs.motorRpm +
    coeffs.pumpEfficiency * inputs.pumpEfficiency +
    coeffs.systemLossBar * inputs.systemLossBar

/-- `MLModel.calculateEfficiency` (src/utils/mlModel.ts lines 313-322). -/
def calculateEfficiency (inputs : InputModel) (coeffs : MetricCoeffs) : ℚ :=
  coeffs.intercept +
    coeffs.boreCm * inputs.boreCm +
    coeffs.rodCm * inputs.rodCm +
    coeffs.deadLoadTon * inputs.deadLoadTon +
    coeffs.holdingLoadTon * inputs.holdingLoadTon +
    coeffs.motorRpm * inputs.motorRpm +
    coeffs.pumpEfficiency * inputs.pumpEfficiency +
    coeffs.systemLossBar * inputs.systemLossBar

/-- `MLModel.calculateCycleTime` (src/utils/mlModel.ts lines 327-336). -/
def calculateCycleTime (inputs : InputModel) (coeffs : MetricCoeffs) : ℚ :=
  coeffs.intercept +
    coeffs.boreCm * inputs.boreCm +
    coeffs.rodCm * inputs.rodCm +
    coeffs.deadLoadTon * inputs.deadLoadTon +
    coeffs.holdingLoadTon * inputs.holdingLoadTon +
    coeffs.motorRpm * inputs.motorRpm +
    coeffs.pumpEfficiency * inputs.pumpEfficiency +
    coeffs.systemLossBar * inputs.systemLossBar

/-- `MLModel.getConfidenceLevel` (src/utils/mlModel.ts lines 363-367):
thresholds 0.9 / 0.8. -/
def getConfidenceLevel (rSquared : ℚ) : Confidence :=
  if rSquared ≥ 0.9 then Confidence.high
  else if rSquared ≥ 0.8 then Confidence.medium
  else Confidence.low

/-- `MLModel.predict` (src/utils/mlModel.ts lines 160-176), with the
resolved coefficient set passed explicitly. -/
def predict (coeffs : RegressionCoefficients) (inputs : InputModel) : PredictionResult :=
  let maxPressure := calculatePressure inputs coeffs.pressure
  let efficiency := calculateEfficiency inputs coeffs.efficiency
  let cycleTime := calculateCycleTime inputs coeffs.cycleTime
  let avgRSquared := (coeffs.rSquared.pressure + coeffs.rSquared.efficiency + coeffs.rSquared.cycleTime) / 3
  { maxPressure := max 0 maxPressure
    efficiency := max 0 (min 1 efficiency)
    cycleTime := max 0 cycleTime
    confidence := getConfidenceLevel avgRSquared }

/-- Read one tunable parameter from the inputs. -/
def getParam (inputs : InputModel) : TunableParam → ℚ
  | TunableParam.boreCm => inputs.boreCm
  | TunableParam.motorRpm => inputs.motorRpm
  | TunableParam.rodCm => inputs.rodCm
  | TunableParam.pumpEfficiency => inputs.pumpEfficiency

/-- Overwrite one tunable parameter (the spread `{ ...inputs }` update). -/
def setParam (inputs : InputModel) : TunableParam → ℚ → InputModel
  | TunableParam.boreCm, v => { inputs with boreCm := v }
  | TunableParam.motorRpm, v => { inputs with motorRpm := v }
  | TunableParam.rodCm, v => { inputs with rodCm := v }
  | TunableParam.pumpEfficiency, v => { inputs with pumpEfficiency := v }

/-- Read one target metric from a prediction. -/
def getTarget (p : PredictionResult) : TargetMetric → ℚ
  | TargetMetric.maxPressure => p.maxPressure
  | TargetMetric.efficiency => p.efficiency
  | TargetMetric.cycleTime => p.cycleTime

/-- The finite-difference step of `calculateSensitivity`:
`parameter === 'motorRpm' ? 10 : 0.1`. -/
def deltaFor : TunableParam → ℚ
  | TunableParam.motorRpm => 10
  | _ => 0.1

/-- `MLModel.calculateSensitivity` (src/utils/mlModel.ts lines 341-358):
forward finite difference with step 10 for `motorRpm`, 0.1 otherwise. -/
def calculateSensitivity (coeffs : RegressionCoefficients) (inputs : InputModel)
    (param : TunableParam) (target : TargetMetric) : ℚ :=
  let delta : ℚ := deltaFor param
  let modified := setParam inputs param (getParam inputs param + delta)
  (getTarget (predict coeffs modified) target - getTarget (predict coeffs inputs) target) / delta

/-- JavaScript truthiness of an optional numeric goal field
(`if (goal.targetCycleTimePct)`): present and nonzero. -/
def truthy (o : Option ℚ) : Bool := decide (o.getD 0 ≠ 0)

/-- `target - current` where `target = current * (1 + pct/100)`. -/
def targetDiff (current pct : ℚ) : ℚ := current * (1 + pct / 100) - current

/-- Bore-diameter candidate of the cycle-time goal block
(src/utils/mlModel.ts lines 188-202). -/
def boreSuggestionCT (coeffs : RegressionCoefficients) (inputs : InputModel)
    (cycleTimeDiff : ℚ) : List Suggestion :=
  let boreSensitivity := calculateSensitivity coeffs inputs TunableParam.boreCm TargetMetric.cycleTime
  if 0.001 < |boreSensitivity| then
    let boreChange := cycleTimeDiff / boreSensitivity
    let newBore := inputs.boreCm + boreChange
    [{ parameter := TunableParam.boreCm
       currentValue := inputs.boreCm
       suggestedValue := max 3 (min 12 newBore)
       change := boreChange
       outOfRange := decide (newBore < 3) || decide (newBore > 8.5)
       confidence := getConfidenceLevel coeffs.rSquared.cycleTime }]
  else []

/-- Motor-RPM candidate of the cycle-time goal block
(src/utils/mlModel.ts lines 204-218). -/
def rpmSuggestionCT (coeffs : RegressionCoefficients) (inputs : InputModel)
    (cycleTimeDiff : ℚ) : List Suggestion :=
  let rpmSensitivity := calculateSensitivity coeffs inputs TunableParam.motorRpm TargetMetric.cycleTime
  if 0.00001 < |rpmSensitivity| then
    let rpmChange := cycleTimeDiff / rpmSensitivity
    let newRpm := inputs.motorRpm + rpmChange
    [{ parameter := TunableParam.motorRpm
       currentValue := inputs.motorRpm
       suggestedValue := max 500 (min 3500 newRpm)
       change := rpmChange
       outOfRange := decide (newRpm < 1000) || decide (newRpm > 3000)
       confidence := getConfidenceLevel coeffs.rSquared.cycleTime }]
  else []

/-- Rod-diameter candidate of the cycle-time goal block
(src/utils/mlModel.ts lines 220-234). -/
def rodSuggestionCT (coeffs : RegressionCoefficients) (inputs : InputModel)
    (cycleTimeDiff : ℚ) : List Suggestion :=
  let rodSensitivity := calculateSensitivity coeffs inputs TunableParam.rodCm TargetMetric.cycleTime
  if 0.001 < |rodSensitivity| then
    let rodChange := cycleTimeDiff / rodSensitivity
    let newRod := inputs.rodCm + rodChange
    [{ parameter := TunableParam.rodCm
       currentValue := inputs.rodCm
       suggestedValue := max 1 (min (inputs.boreCm - 0.5) newRod)
       change := rodChange
       outOfRange := decide (newRod < 1) || decide (newRod ≥ inputs.boreCm)
       confidence := getConfidenceLevel coeffs.rSquared.cycleTime }]
  else []

/-- Pump-efficiency candidate of the cycle-time goal block
(src/utils/mlModel.ts lines 236-250). -/
def pumpEffSuggestionCT (coeffs : RegressionCoefficients) (inputs : InputModel)
    (cycleTimeDiff : ℚ) : List Suggestion :=
  let effSensitivity := calculateSensitivity coeffs inputs TunableParam.pumpEfficiency TargetMetric.cycleTime
  if 0.001 < |effSensitivity| then
    let effChange := cycleTimeDiff / effSensitivity
    let newEff := inputs.pumpEfficiency + effChange
    [{ parameter := TunableParam.pumpEfficiency
       currentValue := inputs.pumpEfficiency
       suggestedValue := max 0.5 (min 0.98 newEff)
       change := effChange
       outOfRange := decide (newEff < 0.7) || decide (newEff > 0.95)
       confidence := getConfidenceLevel coeffs.rSquared.cycleTime }]
  else []

/-- Bore-diameter candidate of the max-pressure goal block
(src/utils/mlModel.ts lines 253-272). -/
def borePressureSuggestion (coeffs : RegressionCoefficients) (inputs : InputModel)
    (pressureDiff : ℚ) : List Suggestion :=
  let boreSensitivity := calculateSensitivity coeffs inputs TunableParam.boreCm TargetMetric.maxPressure
  if 0.001 < |boreSensitivity| then
    let boreChange := pressureDiff / boreSensitivity
    let newBore := inputs.boreCm + boreChange
    [{ parameter := TunableParam.boreCm
       currentValue := inputs.boreCm
       suggestedValue := max 3 (min 12 newBore)
       change := boreChange
       outOfRange := decide (newBore < 3) || decide (newBore > 8.5)
       confidence := getConfidenceLevel coeffs.rSquared.pressure }]
  else []

/-- Pump-efficiency candidate of the efficiency goal block
(src/utils/mlModel.ts lines 274-293). -/
def pumpEffEfficiencySuggestion (coeffs : RegressionCoefficients) (inputs : InputModel)
    (efficiencyDiff : ℚ) : List Suggestion :=
  let pumpEffSensitivity := calculateSensitivity coeffs inputs TunableParam.pumpEfficiency TargetMetric.efficiency
  if 0.001 < |pumpEffSensitivity| then
    let pumpEffChange := efficiencyDiff / pumpEffSensitivity
    let newPumpEff := inputs.pumpEfficiency + pumpEffChange
    [{ parameter := TunableParam.pumpEfficiency
       currentValue := inputs.pumpEfficiency
       suggestedValue := max 0.5 (min 0.98 newPumpEff)
       change := pumpEffChange
       outOfRange := decide (newPumpEff < 0.7) || decide (newPumpEff > 0.95)
       confidence := getConfidenceLevel coeffs.rSquared.efficiency }]
  else []

/-- `MLModel.suggestImprovements` (src/utils/mlModel.ts lines 179-296):
the candidate blocks in source order followed by `slice(0, 4)`.  No
sorting step is present in this module. -/
def suggestImprovements (coeffs : RegressionCoefficients) (inputs : InputModel)
    (goal : Goal) : List Suggestion :=
  let currentPrediction := predict coeffs inputs
  let ctSugs :=
    if truthy goal.targetCycleTimePct then
      let cycleTimeDiff := targetDiff currentPrediction.cycleTime (goal.targetCycleTimePct.getD 0)
      boreSuggestionCT coeffs inputs cycleTimeDiff ++
        rpmSuggestionCT coeffs inputs cycleTimeDiff ++
        rodSuggestionCT coeffs inputs cycleTimeDiff ++
        pumpEffSuggestionCT coeffs inputs cycleTimeDiff
    else []
  let pressureSugs :=
    if truthy goal.targetMaxPressurePct then
      let pressureDiff := targetDiff currentPrediction.maxPressure (goal.targetMaxPressurePct.getD 0)
      borePressureSuggestion coeffs inputs pressureDiff
    else []
  let efficiencySugs :=
    if truthy goal.targetEfficiencyPct then
      let efficiencyDiff := targetDiff currentPrediction.efficiency (goal.targetEfficiencyPct.getD 0)
      pumpEffEfficiencySuggestion coeffs inputs efficiencyDiff
    else []
  (ctSugs ++ pressureSugs ++ efficiencySugs).take 4

end MLModel

namespace EnhancedMLModel

/-- `MLModel.getConfidenceLevel` of the enhanced variant
(src/utils/energyAnalysis.ts lines 968-972): thresholds 0.92 / 0.85. -/
def getConfidenceLevel (rSquared : ℚ) : Confidence :=
  if rSquared ≥ 0.92 then Confidence.high
  else if rSquared ≥ 0.85 then Confidence.medium
  else Confidence.low

/-- The overall-confidence computation of the enhanced `predict`
(src/utils/energyAnalysis.ts lines 484-491): weighted R-squared with
weights 0.4 / 0.3 / 0.3. -/
def overallConfidence (rs : RSquaredBlock) : Confidence :=
  getConfidenceLevel (rs.pressure * 0.4 + rs.efficiency * 0.3 + rs.cycleTime * 0.3)

end EnhancedMLModel

/-- The comparator score used by the enhanced `suggestImprovements` sort
(`{ high: 3, medium: 2, low: 1 }`). -/
def confidenceScore : Confidence → ℕ
  | Confidence.high => 3
  | Confidence.medium => 2
  | Confidence.low => 1

/-- A confidence labelling by two thresholds, following the specification
words "average >= hi yields high, average >= mid yields medium, anything
lower yields low".  Used to compare the code against the claim. -/
def confidenceOfThresholds (hi mid r : ℚ) : Confidence :=
  if hi ≤ r then Confidence.high
  else if mid ≤ r then Confidence.medium
  else Confidence.low

/-- The validity precondition named by the specification: all fields
positive, `rodCm < boreCm` (and in particular `pumpEfficiency > 0`). -/
def ValidInput (inp : InputModel) : Prop :=
  0 < inp.boreCm ∧ 0 < inp.rodCm ∧ 0 < inp.deadLoadTon ∧ 0 < inp.holdingLoadTon ∧
    0 < inp.motorRpm ∧ 0 < inp.pumpEfficiency ∧ 0 < inp.systemLossBar ∧
    inp.rodCm < inp.boreCm

/-- The default input of the application form (App.tsx initial state). -/
def stdInput : InputModel :=
  { boreCm := 6.5, rodCm := 3.0, deadLoadTon := 2.0, holdingLoadTon := 8.0
    motorRpm := 1800, pumpEfficiency := 0.9, systemLossBar := 5.0 }

/-! ### Helper lemmas about the simulator timeline -/

/-- The `k`-th hundredth of a second. -/
def hundredths (k : ℕ) : ℚ := (k : ℚ) / 100

lemma round2_hundredths (k : ℕ) : round2 (hundredths k) = hundredths k := by
  unfold round2 hundredths
  have h : (100 : ℚ) * ((k : ℚ) / 100) = ((k : ℕ) : ℚ) := by ring
  rw [h, round_natCast]
  push_cast
  ring

lemma phaseStepCount_one : Simulator.phaseStepCount 1 = 100 := by
  unfold Simulator.phaseStepCount
  norm_num
  rfl

lemma phaseStepCount_five : Simulator.phaseStepCount 5 = 500 := by
  unfold Simulator.phaseStepCount
  norm_num
  rfl

lemma phaseStepCount_two : Simulator.phaseStepCount 2 = 200 := by
  unfold Simulator.phaseStepCount
  norm_num
  rfl

lemma phaseStepCount_fastUp : Simulator.phaseStepCount 1.25 = 125 := by
  unfold Simulator.phaseStepCount
  norm_num
  rfl

lemma simulatePhase_snd (inp : InputModel) (t0 s0 sp st d ld ar : ℚ) :
    (Simulator.simulatePhase inp t0 s0 sp st d ld ar).2
      = t0 + (Simulator.phaseStepCount d : ℚ) * 0.01 := rfl

lemma simulatePhase_fst_map_timeSec (inp : InputModel) (t0 s0 sp st d ld ar : ℚ) :
    ((Simulator.simulatePhase inp t0 s0 sp st d ld ar).1).map DataPoint.timeSec
      = (List.range (Simulator.phaseStepCount d)).map
          fun j : ℕ => round2 (t0 + (j : ℚ) * 0.01) := by
  simp only [Simulator.simulatePhase, List.map_map]
  rfl

lemma mem_simulatePhase_phase (inp : InputModel) (t0 s0 sp st d ld ar : ℚ) :
    ∀ dp ∈ (Simulator.simulatePhase inp t0 s0 sp st d ld ar).1, dp.phase = none := by
  intro dp hdp
  simp only [Simulator.simulatePhase, List.mem_map, List.mem_range] at hdp
  obtain ⟨j, _, rfl⟩ := hdp
  rfl

lemma map_round2_shift (t0 : ℚ) (k0 n : ℕ) (h : t0 = hundredths k0) :
    (List.range n).map (fun j : ℕ => round2 (t0 + (j : ℚ) * 0.01))
      = (List.range n).map fun j => hundredths (k0 + j) := by
  refine List.map_congr_left fun j _ => ?_
  subst h
  have h2 : hundredths k0 + (j : ℚ) * 0.01 = hundredths (k0 + j) := by
    unfold hundredths
    push_cast
    norm_num
    ring
  rw [h2, round2_hundredths]

lemma range_add_map (f : ℕ → ℚ) (a b : ℕ) :
    (List.range (a + b)).map f
      = (List.range a).map f ++ (List.range b).map fun j => f (a + j) := by
  rw [List.range_add, List.map_append, List.map_map]
  rfl

lemma timeline_split :
    (List.range 925).map hundredths
      = ((List.range 100).map fun j => hundredths (0 + j))
        ++ ((List.range 500).map fun j => hundredths (100 + j))
        ++ ((List.range 200).map fun j => hundredths (600 + j))
        ++ ((List.range 125).map fun j => hundredths (800 + j)) := by
  have h925 : (925 : ℕ) = 100 + (500 + (200 + 125)) := by norm_num
  rw [h925, range_add_map, range_add_map, range_add_map]
  have e1 : ((List.range 100).map fun j => hundredths (0 + j))
      = (List.range 100).map hundredths := by
    refine List.map_congr_left fun j _ => ?_
    rw [Nat.zero_add]
  have e3 : ((List.range 200).map fun j => hundredths (100 + (500 + j)))
      = (List.range 200).map fun j => hundredths (600 + j) := by
    refine List.map_congr_left fun j _ => ?_
    congr 1
    omega
  have e4 : ((List.range 125).map fun j => hundredths (100 + (500 + (200 + j))))
      = (List.range 125).map fun j => hundredths (800 + j) := by
    refine List.map_congr_left fun j _ => ?_
    congr 1
    omega
  rw [e1, e3, e4, List.append_assoc, List.append_assoc]

lemma runSimulation_map_timeSec (piVal : ℚ) (inp : InputModel) :
    (Simulator.runSimulation piVal inp).map DataPoint.timeSec
      = (List.range 925).map hundredths := by
  unfold Simulator.runSimulation Simulator.runSimulationData
  simp only [List.map_append, simulatePhase_fst_map_timeSec, simulatePhase_snd,
    phaseStepCount_one, phaseStepCount_five, phaseStepCount_two, phaseStepCount_fastUp]
  rw [timeline_split]
  rw [map_round2_shift 0 0 100 (by unfold hundredths; norm_num),
    map_round2_shift _ 100 500 (by unfold hundredths; norm_num),
    map_round2_shift _ 600 200 (by unfold hundredths; norm_num),
    map_round2_shift _ 800 125 (by unfold hundredths; norm_num)]

lemma runSimulation_length (piVal : ℚ) (inp : InputModel) :
    (Simulator.runSimulation piVal inp).length = 925 := by
  have h := congrArg List.length (runSimulation_map_timeSec piVal inp)
  simpa using h

lemma runSimulation_end (piVal : ℚ) (inp : InputModel) :
    (Simulator.runSimulationData piVal inp).2 = 9.25 := by
  unfold Simulator.runSimulationData
  simp only [simulatePhase_snd, phaseStepCount_one, phaseStepCount_five,
    phaseStepCount_two, phaseStepCount_fastUp]
  norm_num

/-! ### Helper lemmas about energy aggregation -/

lemma mem_runSimulation_phase (piVal : ℚ) (inp : InputModel) :
    ∀ dp ∈ Simulator.runSimulation piVal inp, dp.phase = none := by
  intro dp hdp
  unfold Simulator.runSimulation Simulator.runSimulationData at hdp
  simp only [List.mem_append] at hdp
  rcases hdp with ((h | h) | h) | h <;>
    exact mem_simulatePhase_phase _ _ _ _ _ _ _ _ dp h

lemma runSimulation_map_phase (piVal : ℚ) (inp : InputModel) :
    (Simulator.runSimulation piVal inp).map DataPoint.phase
      = List.replicate 925 (none : Option Phase) := by
  rw [List.eq_replicate_iff]
  constructor
  · rw [List.length_map]
    exact runSimulation_length piVal inp
  · intro b hb
    rw [List.mem_map] at hb
    obtain ⟨dp, hdp, rfl⟩ := hb
    exact mem_runSimulation_phase piVal inp dp hdp

lemma withNext_fst_mem : ∀ (l : List DataPoint) (x : DataPoint × ℚ),
    x ∈ withNext l → x.1 ∈ l
  | [], x, hx => by simp [withNext] at hx
  | [dp], x, hx => by
    simp only [withNext, List.mem_singleton] at hx
    simp [hx]
  | dp :: dp2 :: rest, x, hx => by
    simp only [withNext, List.mem_cons] at hx
    rcases hx with rfl | hx
    · simp
    · exact List.mem_cons_of_mem _ (withNext_fst_mem (dp2 :: rest) x hx)

lemma foldl_addSample_single : ∀ (pairs : List (DataPoint × ℚ)) (a0 : PhaseAcc),
    (∀ x ∈ pairs, x.1.phase = none) →
    ∃ b, pairs.foldl addSample [(Phase.Working, a0)] = [(Phase.Working, b)]
  | [], a0, _ => ⟨a0, rfl⟩
  | x :: xs, a0, h => by
    have hx : x.1.phase = none := h x (List.mem_cons_self _ _)
    have hstep : addSample [(Phase.Working, a0)] x
        = [(Phase.Working,
            { energyKJ := a0.energyKJ + x.1.hydPowerKW * max 0.001 (x.2 - x.1.timeSec)
              duration := a0.duration + max 0.001 (x.2 - x.1.timeSec)
              totalPower := a0.totalPower + x.1.hydPowerKW
              count := a0.count + 1 })] := by
      simp [addSample, upsert, hx]
    rw [List.foldl_cons, hstep]
    exact foldl_addSample_single xs _ fun y hy => h y (List.mem_cons_of_mem _ hy)

lemma aggregate_untagged_single (data : List DataPoint) (hne : data ≠ [])
    (h : ∀ dp ∈ data, dp.phase = none) :
    ∃ pe, aggregateEnergyByPhase data = [pe] ∧ pe.phase = Phase.Working := by
  obtain ⟨x, xs, hwn⟩ : ∃ x xs, withNext data = x :: xs := by
    cases data with
    | nil => exact absurd rfl hne
    | cons d rest =>
      cases rest with
      | nil => exact ⟨_, _, rfl⟩
      | cons d2 r => exact ⟨_, _, rfl⟩
  have hx : x.1.phase = none :=
    h x.1 (withNext_fst_mem data x (hwn ▸ List.mem_cons_self _ _))
  have hfirst : addSample [] x
      = [(Phase.Working,
          { energyKJ := 0 + x.1.hydPowerKW * max 0.001 (x.2 - x.1.timeSec)
            duration := 0 + max 0.001 (x.2 - x.1.timeSec)
            totalPower := 0 + x.1.hydPowerKW
            count := 0 + 1 })] := by
    simp [addSample, upsert, hx]
  have hxs : ∀ y ∈ xs, y.1.phase = none := fun y hy =>
    h y.1 (withNext_fst_mem data y (hwn ▸ List.mem_cons_of_mem _ hy))
  obtain ⟨b, hb⟩ := foldl_addSample_single xs _ hxs
  unfold aggregateEnergyByPhase
  rw [if_neg (by simpa [List.isEmpty_iff] using hne), hwn, List.foldl_cons, hfirst, hb]
  exact ⟨_, rfl, rfl⟩

/-! ### Helper lemmas about validation -/

/-- A required form field that JavaScript treats as unfilled: absent or zero. -/
def FieldMissing (o : Option ℚ) : Prop := o = none ∨ o = some 0

lemma fieldFalsy_of_missing {o : Option ℚ} (h : FieldMissing o) :
    ValidationUtils.fieldFalsy o = true := by
  rcases h with rfl | rfl <;> simp [ValidationUtils.fieldFalsy]

/-! ### Concrete instances used by counterexamples and witnesses -/

/-- An input with invalid geometry: `rodCm = 6 >= boreCm = 5`. -/
def badGeomInput : InputModel :=
  { boreCm := 5, rodCm := 6, deadLoadTon := 2, holdingLoadTon := 8
    motorRpm := 1800, pumpEfficiency := 0.9, systemLossBar := 5 }

/-- A coefficient set whose three rSquared values are all 0.91
(structurally the fallback set with replaced `rSquared`). -/
def coeffsR91 : RegressionCoefficients :=
  { MLModel.FALLBACK_COEFFS with
      rSquared := { pressure := 0.91, efficiency := 0.91, cycleTime := 0.91 } }

/-- Input exercising the clamping paths of `predict`: the raw cycle-time
regression value is negative (clamped to 0), so all cycle-time
sensitivities vanish, while pressure and efficiency stay unclamped. -/
def clampInput : InputModel :=
  { boreCm := 5, rodCm := 1, deadLoadTon := 1, holdingLoadTon := 1
    motorRpm := 20000, pumpEfficiency := 0.1, systemLossBar := 225 }

/-- A goal requesting all three dimensions at once. -/
def threeWayGoal : Goal :=
  { targetCycleTimePct := some (-10), targetMaxPressurePct := some (-10)
    targetEfficiencyPct := some 10 }

/-- A cycle-time goal of +200% (drives the bore suggestion below 3 cm on
the default form input). -/
def slowGoal : Goal :=
  { targetCycleTimePct := some 200, targetMaxPressurePct := none
    targetEfficiencyPct := none }

/-- A raw (partial) form input whose only flaw is `systemLossBar = 0`. -/
def zeroLossRaw : RawInput :=
  { boreCm := some 6.5, rodCm := some 3, deadLoadTon := some 2
    holdingLoadTon := some 8, motorRpm := some 1800
    pumpEfficiency := some 0.9, systemLossBar := some 0 }

/-- A raw form input with `rodCm = 6 >= boreCm = 5` and all fields filled. -/
def badGeomRaw : RawInput :=
  { boreCm := some 5, rodCm := some 6, deadLoadTon := some 2
    holdingLoadTon := some 8, motorRpm := some 1800
    pumpEfficiency := some 0.9, systemLossBar := some 5 }

/-! ### Claim theorems -/

/-- Claim C1: for every valid `InputModel` (all fields positive,
`rodCm < boreCm`, `pumpEfficiency > 0`), the `DataPoint` series returned by
`Simulator.runSimulation` has non-decreasing `timeSec`, and the run's time
accumulator ends at `1.00 + 5.00 + 2.00 + 1.25 = 9.25` seconds,
independent of the other input parameters. -/
theorem c1_timeSec_monotone_and_end (piVal : ℚ) (inp : InputModel)
    (hv : ValidInput inp) :
    List.Pairwise (· ≤ ·) ((Simulator.runSimulation piVal inp).map DataPoint.timeSec)
    ∧ (Simulator.runSimulationData piVal inp).2 = 9.25 := by
  refine ⟨?_, runSimulation_end piVal inp⟩
  rw [runSimulation_map_timeSec]
  refine List.Pairwise.map hundredths ?_ (List.pairwise_lt_range 925)
  intro a b hab
  unfold hundredths
  have hc : (a : ℚ) ≤ (b : ℚ) := by exact_mod_cast hab.le
  exact (div_le_div_iff_of_pos_right (by norm_num)).mpr hc

/-- Witness for C1 at the application's default form input. -/
theorem c1_witness :
    ValidInput stdInput
    ∧ (List.Pairwise (· ≤ ·)
         ((Simulator.runSimulation 3.14 stdInput).map DataPoint.timeSec)
       ∧ (Simulator.runSimulationData 3.14 stdInput).2 = 9.25) :=
  ⟨by norm_num [ValidInput, stdInput],
   c1_timeSec_monotone_and_end 3.14 stdInput (by norm_num [ValidInput, stdInput])⟩

/-- Counterexample to claim C2: on the input `boreCm = 5, rodCm = 6`
(invalid geometry), `Simulator.runSimulation` still produces the full
925-point series and `MLModel.predict` still produces an ordinary
`PredictionResult`; neither function rejects the input. -/
theorem c2_counterexample :
    badGeomInput.boreCm ≤ badGeomInput.rodCm
    ∧ (Simulator.runSimulation 3.14 badGeomInput).length = 925
    ∧ (MLModel.predict MLModel.FALLBACK_COEFFS badGeomInput).confidence = Confidence.medium
    ∧ 0 ≤ (MLModel.predict MLModel.FALLBACK_COEFFS badGeomInput).maxPressure := by
  refine ⟨by norm_num [badGeomInput], runSimulation_length 3.14 badGeomInput, ?_, ?_⟩
  · norm_num [MLModel.predict, MLModel.calculatePressure, MLModel.calculateEfficiency,
      MLModel.calculateCycleTime, MLModel.getConfidenceLevel, MLModel.FALLBACK_COEFFS,
      badGeomInput]
  · norm_num [MLModel.predict, MLModel.calculatePressure, MLModel.calculateEfficiency,
      MLModel.calculateCycleTime, MLModel.getConfidenceLevel, MLModel.FALLBACK_COEFFS,
      badGeomInput]

/-- Amended claim C2: `ValidationUtils.validateInputs` returns
`isValid = false` for every input whose `rodCm` and `boreCm` are present
with `rodCm >= boreCm`; the rejection happens only there — `runSimulation`
and `predict` themselves perform no geometry check and produce ordinary
results when invoked on such inputs. -/
theorem c2_amended_validation_rejects :
    (∀ (input : RawInput) (r b : ℚ), input.rodCm = some r → input.boreCm = some b →
      b ≤ r → (ValidationUtils.validateInputs input).isValid = false)
    ∧ (∀ (piVal : ℚ) (coeffs : RegressionCoefficients) (inp : InputModel),
        inp.boreCm ≤ inp.rodCm →
        (Simulator.runSimulation piVal inp).length = 925
        ∧ 0 ≤ (MLModel.predict coeffs inp).maxPressure) := by
  constructor
  · intro input r b hr hb hle
    unfold ValidationUtils.validateInputs
    split
    · rfl
    · simp only [hr, hb, Option.getD_some]
      rw [if_pos hle]
  · intro piVal coeffs inp _
    refine ⟨runSimulation_length piVal inp, ?_⟩
    simp only [MLModel.predict]
    exact le_max_left 0 _

/-- Witness for the amended claim C2 on the concrete invalid-geometry
input. -/
theorem c2_witness :
    (ValidationUtils.validateInputs badGeomRaw).isValid = false
    ∧ ((Simulator.runSimulation 3.14 badGeomInput).length = 925
       ∧ 0 ≤ (MLModel.predict MLModel.FALLBACK_COEFFS badGeomInput).maxPressure) :=
  ⟨c2_amended_validation_rejects.1 badGeomRaw 6 5 rfl rfl (by norm_num),
   c2_amended_validation_rejects.2 3.14 MLModel.FALLBACK_COEFFS badGeomInput
     (by norm_num [badGeomInput])⟩

/-- Claim C3: for every `InputModel` and coefficient set,
`MLModel.predict` returns `maxPressure >= 0`, `efficiency` in `[0, 1]` and
`cycleTime >= 0`. -/
theorem c3_prediction_clamped (coeffs : RegressionCoefficients) (inputs : InputModel) :
    0 ≤ (MLModel.predict coeffs inputs).maxPressure
    ∧ 0 ≤ (MLModel.predict coeffs inputs).efficiency
    ∧ (MLModel.predict coeffs inputs).efficiency ≤ 1
    ∧ 0 ≤ (MLModel.predict coeffs inputs).cycleTime := by
  simp only [MLModel.predict]
  exact ⟨le_max_left 0 _, le_max_left 0 _,
    max_le (by norm_num) (min_le_left _ _), le_max_left 0 _⟩

/-- Claim C4: the three metric evaluators of the simple regression model
are extensionally equal as functions of inputs and coefficient block, each
computing intercept plus the sum of coefficient times field over the seven
`InputModel` fields; the metrics differ only through the coefficient
values supplied, and `predict` applies each block to its own evaluator. -/
theorem c4_metric_formulas_identical :
    (∀ (inputs : InputModel) (c : MetricCoeffs),
      MLModel.calculatePressure inputs c = MLModel.calculateEfficiency inputs c
      ∧ MLModel.calculateEfficiency inputs c = MLModel.calculateCycleTime inputs c
      ∧ MLModel.calculatePressure inputs c
          = c.intercept + c.boreCm * inputs.boreCm + c.rodCm * inputs.rodCm
            + c.deadLoadTon * inputs.deadLoadTon
            + c.holdingLoadTon * inputs.holdingLoadTon
            + c.motorRpm * inputs.motorRpm
            + c.pumpEfficiency * inputs.pumpEfficiency
            + c.systemLossBar * inputs.systemLossBar)
    ∧ (∀ (coeffs : RegressionCoefficients) (inputs : InputModel),
        (MLModel.predict coeffs inputs).maxPressure
          = max 0 (MLModel.calculatePressure inputs coeffs.pressure)
        ∧ (MLModel.predict coeffs inputs).efficiency
            = max 0 (min 1 (MLModel.calculateEfficiency inputs coeffs.efficiency))
        ∧ (MLModel.predict coeffs inputs).cycleTime
            = max 0 (MLModel.calculateCycleTime inputs coeffs.cycleTime)) :=
  ⟨fun _ _ => ⟨rfl, rfl, rfl⟩, fun _ _ => ⟨rfl, rfl, rfl⟩⟩

/-- Counterexample to claim C5: with all three rSquared values equal to
0.91 the average is 0.91 < 0.92, yet `MLModel.predict` labels the
prediction `high` (its thresholds are 0.9 / 0.8, not 0.92 / 0.85). -/
theorem c5_counterexample :
    (MLModel.predict coeffsR91 stdInput).confidence = Confidence.high
    ∧ ((0.91 : ℚ) + 0.91 + 0.91) / 3 < 0.92 := by
  refine ⟨?_, by norm_num⟩
  norm_num [MLModel.predict, MLModel.calculatePressure, MLModel.calculateEfficiency,
    MLModel.calculateCycleTime, MLModel.getConfidenceLevel, MLModel.FALLBACK_COEFFS,
    coeffsR91, stdInput]

/-- Amended claim C5: the confidence label is a two-threshold function of
an average of the three per-metric rSquared values; in `mlModel.ts` (the
module the application imports) the simple average is thresholded at
0.9 -> high and 0.8 -> medium, while the 0.92 / 0.85 thresholds appear
only in the `energyAnalysis.ts` variant, applied there to the
0.4 / 0.3 / 0.3 weighted average. -/
theorem c5_amended_thresholds :
    (∀ (coeffs : RegressionCoefficients) (inputs : InputModel),
      (MLModel.predict coeffs inputs).confidence
        = confidenceOfThresholds 0.9 0.8
            ((coeffs.rSquared.pressure + coeffs.rSquared.efficiency
              + coeffs.rSquared.cycleTime) / 3))
    ∧ (∀ r : ℚ, EnhancedMLModel.getConfidenceLevel r = confidenceOfThresholds 0.92 0.85 r)
    ∧ (∀ rs : RSquaredBlock, EnhancedMLModel.overallConfidence rs
        = confidenceOfThresholds 0.92 0.85
            (rs.pressure * 0.4 + rs.efficiency * 0.3 + rs.cycleTime * 0.3)) :=
  ⟨fun _ _ => rfl, fun _ => rfl, fun _ => rfl⟩

/-- Counterexample to claim C6: on a concrete input and three-way goal the
returned suggestion list is `[medium, high]` in confidence — a
medium-confidence suggestion precedes a high-confidence one, so the list
returned by `MLModel.suggestImprovements` is not ordered by confidence
descending. -/
theorem c6_counterexample :
    (MLModel.suggestImprovements MLModel.FALLBACK_COEFFS clampInput threeWayGoal).map
        Suggestion.confidence
      = [Confidence.medium, Confidence.high]
    ∧ ¬ List.Pairwise (fun a b => confidenceScore b ≤ confidenceScore a)
        ((MLModel.suggestImprovements MLModel.FALLBACK_COEFFS clampInput threeWayGoal).map
          Suggestion.confidence) := by
  have hmap : (MLModel.suggestImprovements MLModel.FALLBACK_COEFFS clampInput threeWayGoal).map
      Suggestion.confidence = [Confidence.medium, Confidence.high] := by
    norm_num [MLModel.suggestImprovements, MLModel.boreSuggestionCT, MLModel.rpmSuggestionCT,
      MLModel.rodSuggestionCT, MLModel.pumpEffSuggestionCT, MLModel.borePressureSuggestion,
      MLModel.pumpEffEfficiencySuggestion, MLModel.calculateSensitivity, MLModel.deltaFor,
      MLModel.predict, MLModel.calculatePressure, MLModel.calculateEfficiency,
      MLModel.calculateCycleTime, MLModel.getConfidenceLevel, MLModel.truthy,
      MLModel.targetDiff, MLModel.getParam, MLModel.setParam, MLModel.getTarget,
      MLModel.FALLBACK_COEFFS, clampInput, threeWayGoal, abs_of_pos, abs_of_nonneg]
  refine ⟨hmap, ?_⟩
  rw [hmap]
  decide

/-- Amended claim C6: `MLModel.suggestImprovements` returns at most 4
suggestions; they are emitted in goal-block insertion order (cycle time,
then pressure, then efficiency) and are not re-sorted by confidence. -/
theorem c6_amended_at_most_four (coeffs : RegressionCoefficients)
    (inputs : InputModel) (goal : Goal) :
    (MLModel.suggestImprovements coeffs inputs goal).length ≤ 4 := by
  simp only [MLModel.suggestImprovements]
  exact List.length_take_le _ _

/-- Claim C7: whenever the cycle-time goal's unclamped bore suggestion
would put `boreCm` below 3 cm (and the bore suggestion is emitted at all,
i.e. the sensitivity is above the 0.001 threshold), the emitted bore
suggestion — the head of the returned list — has `suggestedValue = 3.0`
and `outOfRange = true`. -/
theorem c7_bore_clamped_low (coeffs : RegressionCoefficients) (inputs : InputModel)
    (goal : Goal)
    (hgoal : MLModel.truthy goal.targetCycleTimePct = true)
    (hsens : (0.001 : ℚ) < |MLModel.calculateSensitivity coeffs inputs
        TunableParam.boreCm TargetMetric.cycleTime|)
    (hlow : inputs.boreCm +
        MLModel.targetDiff (MLModel.predict coeffs inputs).cycleTime
            (goal.targetCycleTimePct.getD 0) /
          MLModel.calculateSensitivity coeffs inputs TunableParam.boreCm
            TargetMetric.cycleTime < 3) :
    ∃ sug rest, MLModel.suggestImprovements coeffs inputs goal = sug :: rest
      ∧ sug.parameter = TunableParam.boreCm
      ∧ sug.suggestedValue = 3
      ∧ sug.outOfRange = true := by
  simp only [MLModel.suggestImprovements, MLModel.boreSuggestionCT, hgoal, if_true]
  rw [if_pos hsens]
  simp only [List.cons_append, List.singleton_append, List.nil_append]
  rw [show (4 : ℕ) = 3 + 1 from rfl, List.take_succ_cons]
  refine ⟨_, _, rfl, rfl, ?_, ?_⟩
  · show max 3 (min 12 _) = 3
    rw [min_eq_right (le_trans hlow.le (by norm_num)), max_eq_left hlow.le]
  · show (decide _ || decide _) = true
    rw [decide_eq_true hlow, Bool.true_or]

/-- Witness for C7: on the default form input with a +200% cycle-time
goal, the unclamped bore suggestion is 1/15 cm < 3 cm, so the emitted
suggestion is clamped to 3.0 with `outOfRange = true`. -/
theorem c7_witness :
    (MLModel.truthy slowGoal.targetCycleTimePct = true
     ∧ (0.001 : ℚ) < |MLModel.calculateSensitivity MLModel.FALLBACK_COEFFS stdInput
          TunableParam.boreCm TargetMetric.cycleTime|
     ∧ stdInput.boreCm +
         MLModel.targetDiff (MLModel.predict MLModel.FALLBACK_COEFFS stdInput).cycleTime
             (slowGoal.targetCycleTimePct.getD 0) /
           MLModel.calculateSensitivity MLModel.FALLBACK_COEFFS stdInput
             TunableParam.boreCm TargetMetric.cycleTime < 3)
    ∧ (∃ sug rest,
        MLModel.suggestImprovements MLModel.FALLBACK_COEFFS stdInput slowGoal = sug :: rest
        ∧ sug.parameter = TunableParam.boreCm
        ∧ sug.suggestedValue = 3
        ∧ sug.outOfRange = true) :=
  ⟨⟨by norm_num [MLModel.truthy, slowGoal],
    by norm_num [MLModel.calculateSensitivity, MLModel.deltaFor, MLModel.predict,
      MLModel.calculatePressure, MLModel.calculateEfficiency, MLModel.calculateCycleTime,
      MLModel.getConfidenceLevel, MLModel.getParam, MLModel.setParam, MLModel.getTarget,
      MLModel.FALLBACK_COEFFS, stdInput, abs_of_pos, abs_of_nonneg, abs_of_neg],
    by norm_num [MLModel.calculateSensitivity, MLModel.deltaFor, MLModel.predict,
      MLModel.calculatePressure, MLModel.calculateEfficiency, MLModel.calculateCycleTime,
      MLModel.getConfidenceLevel, MLModel.getParam, MLModel.setParam, MLModel.getTarget,
      MLModel.targetDiff, MLModel.FALLBACK_COEFFS, stdInput, slowGoal]⟩,
   c7_bore_clamped_low MLModel.FALLBACK_COEFFS stdInput slowGoal
     (by norm_num [MLModel.truthy, slowGoal])
     (by norm_num [MLModel.calculateSensitivity, MLModel.deltaFor, MLModel.predict,
       MLModel.calculatePressure, MLModel.calculateEfficiency, MLModel.calculateCycleTime,
       MLModel.getConfidenceLevel, MLModel.getParam, MLModel.setParam, MLModel.getTarget,
       MLModel.FALLBACK_COEFFS, stdInput, abs_of_pos, abs_of_nonneg, abs_of_neg])
     (by norm_num [MLModel.calculateSensitivity, MLModel.deltaFor, MLModel.predict,
       MLModel.calculatePressure, MLModel.calculateEfficiency, MLModel.calculateCycleTime,
       MLModel.getConfidenceLevel, MLModel.getParam, MLModel.setParam, MLModel.getTarget,
       MLModel.targetDiff, MLModel.FALLBACK_COEFFS, stdInput, slowGoal])⟩

/-- Counterexample to claim C8: at `rodCm = boreCm = 5`,
`HydroCalculator.rodArea` returns exactly `0` — an ordinary non-negative
area, neither negative nor a failure. -/
theorem c8_counterexample :
    HydroCalculator.rodArea 3.14 5 5 = 0 ∧ ¬ HydroCalculator.rodArea 3.14 5 5 < 0 := by
  norm_num [HydroCalculator.rodArea]

/-- Amended claim C8: for `rodCm >= boreCm >= 0` (with a positive pi
constant), `rodArea` returns a non-positive area — strictly negative when
`rodCm > boreCm`, and exactly `0` in the degenerate case
`rodCm = boreCm`; it never throws. -/
theorem c8_amended_nonpositive (piVal b r : ℚ) (hpi : 0 < piVal) (hb : 0 ≤ b)
    (hbr : b ≤ r) :
    HydroCalculator.rodArea piVal b r ≤ 0
    ∧ (b < r → HydroCalculator.rodArea piVal b r < 0) := by
  constructor
  · have h2 : (b / 100) ^ 2 ≤ (r / 100) ^ 2 :=
      pow_le_pow_left₀ (by positivity) (by linarith) 2
    have h3 : (b / 100) ^ 2 - (r / 100) ^ 2 ≤ 0 := by linarith
    have h4 : piVal * ((b / 100) ^ 2 - (r / 100) ^ 2) ≤ 0 :=
      mul_nonpos_of_nonneg_of_nonpos hpi.le h3
    unfold HydroCalculator.rodArea
    linarith
  · intro hlt
    have h2 : (b / 100) ^ 2 < (r / 100) ^ 2 :=
      pow_lt_pow_left₀ (by linarith) (by positivity) (by norm_num)
    have h3 : (b / 100) ^ 2 - (r / 100) ^ 2 < 0 := by linarith
    have h4 : piVal * ((b / 100) ^ 2 - (r / 100) ^ 2) < 0 :=
      mul_neg_of_pos_of_neg hpi h3
    unfold HydroCalculator.rodArea
    linarith

/-- Witness for the amended claim C8 at `boreCm = 5 < rodCm = 6`. -/
theorem c8_witness :
    (0 : ℚ) < 3.14 ∧ (0 : ℚ) ≤ 5 ∧ (5 : ℚ) ≤ 6
    ∧ (HydroCalculator.rodArea 3.14 5 6 ≤ 0
       ∧ ((5 : ℚ) < 6 → HydroCalculator.rodArea 3.14 5 6 < 0)) :=
  ⟨by norm_num, by norm_num, by norm_num,
   c8_amended_nonpositive 3.14 5 6 (by norm_num) (by norm_num) (by norm_num)⟩

/-- Claim C9: the simulator never tags its data points with a phase (every
produced `DataPoint.phase` is absent), and consequently
`aggregateEnergyByPhase` applied to a simulation's output returns exactly
one group, keyed `Working`. -/
theorem c9_untagged_single_group (piVal : ℚ) (inp : InputModel) :
    (Simulator.runSimulation piVal inp).map DataPoint.phase
        = List.replicate 925 (none : Option Phase)
    ∧ ∃ pe, aggregateEnergyByPhase (Simulator.runSimulation piVal inp) = [pe]
        ∧ pe.phase = Phase.Working := by
  refine ⟨runSimulation_map_phase piVal inp, ?_⟩
  apply aggregate_untagged_single
  · intro hnil
    have hlen := runSimulation_length piVal inp
    rw [hnil] at hlen
    simp at hlen
  · exact mem_runSimulation_phase piVal inp

/-- Claim C10: `validateInputs` returns `isValid = false`, with exactly
the single warning "Please fill in all required fields" and no tips,
whenever any of the seven required fields is absent or equals 0. -/
theorem c10_missing_fields_rejected (input : RawInput)
    (h : FieldMissing input.boreCm ∨ FieldMissing input.rodCm
      ∨ FieldMissing input.deadLoadTon ∨ FieldMissing input.holdingLoadTon
      ∨ FieldMissing input.motorRpm ∨ FieldMissing input.pumpEfficiency
      ∨ FieldMissing input.systemLossBar) :
    ValidationUtils.validateInputs input
      = { isValid := false, warnings := ["Please fill in all required fields"]
          tips := [] } := by
  have hb : (ValidationUtils.fieldFalsy input.boreCm || ValidationUtils.fieldFalsy input.rodCm ||
      ValidationUtils.fieldFalsy input.deadLoadTon ||
      ValidationUtils.fieldFalsy input.holdingLoadTon ||
      ValidationUtils.fieldFalsy input.motorRpm ||
      ValidationUtils.fieldFalsy input.pumpEfficiency ||
      ValidationUtils.fieldFalsy input.systemLossBar) = true := by
    rcases h with h | h | h | h | h | h | h <;> simp [fieldFalsy_of_missing h]
  unfold ValidationUtils.validateInputs
  rw [if_pos hb]

/-- Witness for C10: a fully otherwise-valid form with the legitimate zero
value `systemLossBar = 0` is rejected as incomplete. -/
theorem c10_witness :
    (FieldMissing zeroLossRaw.boreCm ∨ FieldMissing zeroLossRaw.rodCm
      ∨ FieldMissing zeroLossRaw.deadLoadTon ∨ FieldMissing zeroLossRaw.holdingLoadTon
      ∨ FieldMissing zeroLossRaw.motorRpm ∨ FieldMissing zeroLossRaw.pumpEfficiency
      ∨ FieldMissing zeroLossRaw.systemLossBar)
    ∧ ValidationUtils.validateInputs zeroLossRaw
        = { isValid := false, warnings := ["Please fill in all required fields"]
            tips := [] } :=
  ⟨by simp [zeroLossRaw, FieldMissing],
   c10_missing_fields_rejected zeroLossRaw (by simp [zeroLossRaw, FieldMissing])⟩
